import Mathlib

/-
Shallow embedding of the feed-generator core of gauravdhanuka4/trade-detection-system.

Modelling conventions:
* Go float64 values are modelled as rationals; every decimal literal below is
  the exact decimal from the source.
* The process-wide pseudo-random source is modelled by passing each draw
  explicitly, in the order the Go code consumes it:
  - a rand.Float64 draw is a rational parameter, quantified over [0, 1);
  - a rand.Intn(n) draw is a natural-number parameter k used as k % n, so the
    reachable values are exactly 0 .. n-1;
  - a rand.NormFloat64 draw is an unconstrained rational parameter.
* Go time.Time instants are modelled as integers counting seconds (at one
  fixed location); time.Duration values in the engine configuration keep
  the Go unit, nanoseconds.  t.Add(d seconds) is integer addition, and
  time.Date(t.Year(), t.Month(), t.Day(), h, mi, s, 0, t.Location()) is
  modelled by keeping the floor-of-86400 calendar day of t and replacing
  the second-of-day, which is exactly what the Go call computes for the
  fixed location.
* The uuid.New() trade identifier is not modelled: no claim mentions it and
  it influences nothing else.
* Go int64 / uint64 counters are modelled as unbounded integers; 64-bit
  wraparound is out of scope for the counted quantities here.
-/

/-- Trade side, mirroring models.TradeType (TradeTypeBuy / TradeTypeSell). -/
inductive TradeType where
  | buy
  | sell
deriving DecidableEq

/-- Trade record, mirroring models.Trade (the uuid ID field is omitted, see
the header comment). -/
structure Trade where
  userID : String
  symbol : String
  amount : ℚ
  price : ℚ
  type : TradeType
  timestamp : ℤ
deriving DecidableEq

/-- Trader category, mirroring profiles.TraderType. -/
inductive TraderType where
  | hft
  | regular
  | casual
  | fraud
deriving DecidableEq

/-- Fraud pattern tag, mirroring profiles.FraudType. -/
inductive FraudType where
  | noFraud
  | wash
  | velocity
  | anomaly
  | allFraud
deriving DecidableEq

/-- The Go string value of a TraderType, mirroring string(profile.Type). -/
def traderTypeName : TraderType → String
  | TraderType.hft => "HFT"
  | TraderType.regular => "REGULAR"
  | TraderType.casual => "CASUAL"
  | TraderType.fraud => "FRAUD"

/-- Trader archetype, mirroring profiles.TraderProfile. -/
structure TraderProfile where
  userID : String
  type : TraderType
  typicalSymbols : List String
  avgTradeSize : ℚ
  volatility : ℚ
  activeHours : List ℕ
  tradesPerHour : ℕ
  fraudPattern : FraudType
deriving DecidableEq

/-- profiles.BlueChipSymbols. -/
def BlueChipSymbols : List String :=
  ["AAPL", "MSFT", "GOOGL", "AMZN", "META", "NVDA", "TSLA"]

/-- profiles.PopularSymbols. -/
def PopularSymbols : List String :=
  ["AAPL", "TSLA", "AMZN", "NVDA", "SPY", "QQQ"]

/-- profiles.ETFSymbols. -/
def ETFSymbols : List String :=
  ["SPY", "QQQ", "VTI", "IWM", "DIA"]

/-- profiles.PennyStocks. -/
def PennyStocks : List String :=
  ["PENNY_A", "PENNY_B", "PENNY_C", "MICRO_X", "MICRO_Y"]

/-- patterns.getSymbolPrices: the static base price table. -/
def getSymbolPrices : List (String × ℚ) :=
  [("AAPL", 175.50), ("MSFT", 378.25), ("GOOGL", 140.75), ("AMZN", 155.35),
   ("META", 362.80), ("NVDA", 495.20), ("TSLA", 242.80),
   ("AMD", 142.30), ("NFLX", 485.60), ("DIS", 95.40),
   ("SPY", 475.20), ("QQQ", 405.80), ("VTI", 245.30), ("IWM", 198.50),
   ("DIA", 382.40),
   ("PENNY_A", 2.50), ("PENNY_B", 1.80), ("PENNY_C", 3.20),
   ("MICRO_X", 0.85), ("MICRO_Y", 1.25)]

/-- Map lookup with the 100.0 fallback of patterns.GetPrice:
basePrice, exists := pg.symbolPrices[symbol]; if !exists then 100.0. -/
def lookupBasePrice : List (String × ℚ) → String → ℚ
  | [], _ => 100
  | (sym, price) :: rest, s => if sym = s then price else lookupBasePrice rest s

/-- The concatenated symbol-universe list built inside
profiles.GetRandomSymbol by appending BlueChipSymbols, PopularSymbols and
ETFSymbols to an empty slice.  Note it keeps duplicates: symbols present in
several universes occur several times. -/
def allSymbols : List String :=
  BlueChipSymbols ++ PopularSymbols ++ ETFSymbols

/-- profiles.GetRandomSymbol.  Draws: u is the rand.Float64 probe for the
80/20 split, i the rand.Intn index into the typical list, j the rand.Intn
index into the concatenated universe list. -/
def GetRandomSymbol (p : TraderProfile) (u : ℚ) (i j : ℕ) : String :=
  if p.typicalSymbols = [] then
    "AAPL"
  else if u < 0.8 then
    p.typicalSymbols.getD (i % p.typicalSymbols.length) "AAPL"
  else
    allSymbols.getD (j % allSymbols.length) "AAPL"

/-- patterns.PatternGenerator.GenerateAmount.  z is the rand.NormFloat64
draw. -/
def GenerateAmount (profile : TraderProfile) (z : ℚ) : ℚ :=
  let mean := profile.avgTradeSize
  let stdDev := mean * profile.volatility
  let amount := mean + z * stdDev
  let minAmount := mean * 0.1
  let maxAmount := mean * 3.0
  let amount := if amount < minAmount then minAmount else amount
  let amount := if amount > maxAmount then maxAmount else amount
  amount

/-- patterns.PatternGenerator.GetPrice.  u is the rand.Float64 draw for the
one-percent jitter. -/
def GetPrice (symbol : String) (u : ℚ) : ℚ :=
  let basePrice := lookupBasePrice getSymbolPrices symbol
  let variation := (u - 0.5) * 0.02
  basePrice * (1 + variation)

/-- patterns.PatternGenerator.RandomTradeType.  u is the rand.Float64 draw. -/
def RandomTradeType (u : ℚ) : TradeType :=
  if u < 0.5 then TradeType.buy else TradeType.sell

/-- Calendar day number of an instant, seconds divided by 86400 rounded down;
used to model the Year()/Month()/Day() decomposition at the fixed location. -/
def calendarDay (t : ℤ) : ℤ := t / 86400

/-- Second-of-day of an instant at the fixed location. -/
def secondOfDay (t : ℤ) : ℤ := t % 86400

/-- Models time.Date(t.Year(), t.Month(), t.Day(), hour, minute, second, 0,
t.Location()): same calendar day as t, given second-of-day. -/
def timeDateSameDay (t : ℤ) (hour minute second : ℕ) : ℤ :=
  86400 * calendarDay t + 3600 * (hour : ℤ) + 60 * (minute : ℤ) + (second : ℤ)

/-- patterns.PatternGenerator.InjectWashTrade: a Buy followed by a Sell of
the same symbol and amount.  Draws in source order: symU/symI/symJ feed
GetRandomSymbol, amtZ feeds GenerateAmount, priceU feeds GetPrice, sellU is
the rand.Float64 of the sell-leg perturbation, offK the rand.Intn(4) of the
timestamp offset. -/
def InjectWashTrade (profile : TraderProfile) (baseTime : ℤ)
    (symU : ℚ) (symI symJ : ℕ) (amtZ : ℚ) (priceU : ℚ)
    (sellU : ℚ) (offK : ℕ) : List Trade :=
  let symbol := GetRandomSymbol profile symU symI symJ
  let amount := GenerateAmount profile amtZ
  let price := GetPrice symbol priceU
  [{ userID := profile.userID, symbol := symbol, amount := amount,
     price := price, type := TradeType.buy, timestamp := baseTime },
   { userID := profile.userID, symbol := symbol, amount := amount,
     price := price * (1 + (sellU - 0.5) * 0.001), type := TradeType.sell,
     timestamp := baseTime + ((1 + offK % 4 : ℕ) : ℤ) }]

/-- patterns.PatternGenerator.InjectVelocitySpike: a burst of
10 + rand.Intn(11) trades on one symbol, one second apart.  numK is the
rand.Intn(11) draw; amtZs, priceUs, sideUs are the per-trade draw streams. -/
def InjectVelocitySpike (profile : TraderProfile) (baseTime : ℤ)
    (numK : ℕ) (symU : ℚ) (symI symJ : ℕ) (basePriceU : ℚ)
    (amtZs priceUs sideUs : ℕ → ℚ) : List Trade :=
  let numTrades := 10 + numK % 11
  let symbol := GetRandomSymbol profile symU symI symJ
  let basePrice := GetPrice symbol basePriceU
  (List.range numTrades).map fun i =>
    { userID := profile.userID, symbol := symbol,
      amount := GenerateAmount profile (amtZs i),
      price := basePrice * (1 + (priceUs i - 0.5) * 0.02),
      type := RandomTradeType (sideUs i),
      timestamp := baseTime + (i : ℤ) }

/-- patterns.PatternGenerator.InjectAnomaly: one trade whose sub-type is
rand.Intn(4) (here typeK % 4).  Case 0 is the 10x size anomaly, case 1 the
2-5 AM timing anomaly, case 2 the penny-stock symbol anomaly, case 3 the
plus-minus 25 percent price anomaly. -/
def InjectAnomaly (profile : TraderProfile) (baseTime : ℤ)
    (typeK : ℕ) (symU : ℚ) (symI symJ : ℕ) (amtZ : ℚ) (sideU : ℚ)
    (priceU : ℚ) (nightK minK secK : ℕ) (pennyK : ℕ) (pennyPriceU : ℚ)
    (devU : ℚ) : Trade :=
  let anomalyType := typeK % 4
  let trade : Trade :=
    { userID := profile.userID,
      symbol := GetRandomSymbol profile symU symI symJ,
      amount := GenerateAmount profile amtZ,
      price := 0,
      type := RandomTradeType sideU,
      timestamp := baseTime }
  if anomalyType = 0 then
    { trade with amount := profile.avgTradeSize * 10,
                 price := GetPrice trade.symbol priceU }
  else if anomalyType = 1 then
    let nightHour := 2 + nightK % 4
    { trade with timestamp := timeDateSameDay baseTime nightHour (minK % 60) (secK % 60),
                 price := GetPrice trade.symbol priceU }
  else if anomalyType = 2 then
    { trade with symbol := PennyStocks.getD (pennyK % PennyStocks.length) "AAPL",
                 price := pennyPriceU * 5 + 0.5 }
  else
    { trade with price := GetPrice trade.symbol priceU * (1 + (devU - 0.5) * 0.5) }

/-- generator.Generator.generateTrade: the normal-path trade synthesis. -/
def generateTrade (profile : TraderProfile) (timestamp : ℤ)
    (symU : ℚ) (symI symJ : ℕ) (amtZ : ℚ) (priceU : ℚ) (sideU : ℚ) : Trade :=
  let symbol := GetRandomSymbol profile symU symI symJ
  { userID := profile.userID, symbol := symbol,
    amount := GenerateAmount profile amtZ,
    price := GetPrice symbol priceU,
    type := RandomTradeType sideU,
    timestamp := timestamp }

/-- profiles.GetDefaultProfiles: the fixed 13-profile catalog. -/
def GetDefaultProfiles : List TraderProfile :=
  [{ userID := "HFT_001", type := TraderType.hft,
     typicalSymbols := BlueChipSymbols, avgTradeSize := 75000,
     volatility := 0.2, activeHours := [9, 10, 11, 12, 13, 14, 15],
     tradesPerHour := 100, fraudPattern := FraudType.noFraud },
   { userID := "HFT_002", type := TraderType.hft,
     typicalSymbols := ["TSLA", "NVDA", "META", "AMZN"], avgTradeSize := 100000,
     volatility := 0.3, activeHours := [9, 10, 11, 12, 13, 14, 15, 16],
     tradesPerHour := 150, fraudPattern := FraudType.noFraud },
   { userID := "HFT_003", type := TraderType.hft,
     typicalSymbols := BlueChipSymbols, avgTradeSize := 50000,
     volatility := 0.2, activeHours := [9, 10, 11, 12, 13, 14, 15],
     tradesPerHour := 80, fraudPattern := FraudType.noFraud },
   { userID := "USER_001", type := TraderType.regular,
     typicalSymbols := PopularSymbols.take 4, avgTradeSize := 5000,
     volatility := 0.5, activeHours := [10, 14],
     tradesPerHour := 2, fraudPattern := FraudType.noFraud },
   { userID := "USER_002", type := TraderType.regular,
     typicalSymbols := ["AAPL", "MSFT", "GOOGL"], avgTradeSize := 7500,
     volatility := 0.4, activeHours := [9, 12, 15],
     tradesPerHour := 3, fraudPattern := FraudType.noFraud },
   { userID := "USER_003", type := TraderType.regular,
     typicalSymbols := PopularSymbols, avgTradeSize := 4000,
     volatility := 0.6, activeHours := [11, 14],
     tradesPerHour := 1, fraudPattern := FraudType.noFraud },
   { userID := "USER_004", type := TraderType.regular,
     typicalSymbols := ["TSLA", "NVDA", "AMD"], avgTradeSize := 6000,
     volatility := 0.5, activeHours := [10, 13],
     tradesPerHour := 2, fraudPattern := FraudType.noFraud },
   { userID := "USER_005", type := TraderType.regular,
     typicalSymbols := PopularSymbols.take 3, avgTradeSize := 5500,
     volatility := 0.4, activeHours := [9, 14],
     tradesPerHour := 2, fraudPattern := FraudType.noFraud },
   { userID := "USER_006", type := TraderType.regular,
     typicalSymbols := BlueChipSymbols.take 4, avgTradeSize := 8000,
     volatility := 0.3, activeHours := [10, 15],
     tradesPerHour := 3, fraudPattern := FraudType.noFraud },
   { userID := "USER_007", type := TraderType.regular,
     typicalSymbols := PopularSymbols, avgTradeSize := 4500,
     volatility := 0.5, activeHours := [11, 14],
     tradesPerHour := 1, fraudPattern := FraudType.noFraud },
   { userID := "CASUAL_001", type := TraderType.casual,
     typicalSymbols := ETFSymbols.take 2, avgTradeSize := 1000,
     volatility := 0.3, activeHours := [10],
     tradesPerHour := 1, fraudPattern := FraudType.noFraud },
   { userID := "FRAUD_WASH_001", type := TraderType.fraud,
     typicalSymbols := PennyStocks, avgTradeSize := 10000,
     volatility := 0.1, activeHours := [9, 10, 11, 12, 13, 14, 15],
     tradesPerHour := 20, fraudPattern := FraudType.wash },
   { userID := "FRAUD_VELOCITY_001", type := TraderType.fraud,
     typicalSymbols := PopularSymbols.take 3, avgTradeSize := 5000,
     volatility := 0.2, activeHours := [14],
     tradesPerHour := 5, fraudPattern := FraudType.velocity },
   { userID := "FRAUD_ANOMALY_001", type := TraderType.fraud,
     typicalSymbols := BlueChipSymbols.take 3, avgTradeSize := 3000,
     volatility := 0.4, activeHours := [10, 14],
     tradesPerHour := 2, fraudPattern := FraudType.anomaly }]

/-- Uniform pick from a list: profiles[rand.Intn(len(profiles))], none when
the list is empty.  k % length is the modelled rand.Intn draw. -/
def chooseFrom {α : Type} (l : List α) (k : ℕ) : Option α :=
  l.get? (k % l.length)

/-- profiles.SelectProfile.  r is the rand.Float64 ratio probe; pickHft,
pickRegular, pickCasual and pickAll model the rand.Intn draw of whichever
bucket (or the catalog-wide fallback) ends up being indexed. -/
def SelectProfile (ps : List TraderProfile)
    (hftFrac regularFrac casualFrac : ℚ) (r : ℚ)
    (pickHft pickRegular pickCasual pickAll : ℕ) : Option TraderProfile :=
  let hftProfiles := ps.filter fun p => decide (p.type = TraderType.hft)
  let regularProfiles := ps.filter fun p => decide (p.type = TraderType.regular)
  let casualProfiles := ps.filter fun p => decide (p.type = TraderType.casual)
  let bucketPick : Option TraderProfile :=
    if r < hftFrac then chooseFrom hftProfiles pickHft
    else if r < hftFrac + regularFrac then chooseFrom regularProfiles pickRegular
    else chooseFrom casualProfiles pickCasual
  match bucketPick with
  | some p => some p
  | none => chooseFrom ps pickAll

/-- The Go filter condition of profiles.SelectFraudProfile:
profiles[i].Type == FraudTrader and (fraudType == AllFraud or
profiles[i].FraudPattern == fraudType). -/
def fraudMatches (p : TraderProfile) (fraudType : FraudType) : Bool :=
  decide (p.type = TraderType.fraud ∧
    (fraudType = FraudType.allFraud ∨ p.fraudPattern = fraudType))

/-- profiles.SelectFraudProfile: uniform pick from the filtered fraud
profiles, none when the filtered set is empty. -/
def SelectFraudProfile (ps : List TraderProfile) (fraudType : FraudType)
    (k : ℕ) : Option TraderProfile :=
  chooseFrom (ps.filter fun p => fraudMatches p fraudType) k

/-- config.GenerateConfig.  Durations keep the Go time.Duration unit,
nanoseconds. -/
structure GenerateConfig where
  tps : ℤ
  duration : ℤ
  fraudRate : ℚ
  fraudType : String
  verbose : Bool
  statsInterval : ℤ
deriving DecidableEq

/-- config.ProfilesConfig.  Field names hftFrac / regularFrac / casualFrac
stand for the Go fields HFTRatio / RegularRatio / CasualRatio. -/
structure ProfilesConfig where
  hftFrac : ℚ
  regularFrac : ℚ
  casualFrac : ℚ
deriving DecidableEq

/-- config.Config (the Redis connection fields other than the port do not
influence any claim and are omitted). -/
structure Config where
  redisPort : ℤ
  generate : GenerateConfig
  profilesCfg : ProfilesConfig
deriving DecidableEq

/-- One minute of Go time.Duration, in nanoseconds. -/
def goMinute : ℤ := 60 * 1000000000

/-- One second of Go time.Duration, in nanoseconds. -/
def goSecond : ℤ := 1000000000

/-- The default-filling part of config.LoadConfig: every field that viper
reports as the zero value is replaced by the hard-coded default.  In
particular a Duration of 0 becomes 5 minutes. -/
def applyDefaults (cfg : Config) : Config :=
  { redisPort := if cfg.redisPort = 0 then 6379 else cfg.redisPort,
    generate :=
      { tps := if cfg.generate.tps = 0 then 100 else cfg.generate.tps,
        duration := if cfg.generate.duration = 0 then 5 * goMinute else cfg.generate.duration,
        fraudRate := cfg.generate.fraudRate,
        fraudType := if cfg.generate.fraudType = "" then "ALL" else cfg.generate.fraudType,
        verbose := cfg.generate.verbose,
        statsInterval := if cfg.generate.statsInterval = 0 then 10 * goSecond else cfg.generate.statsInterval },
    profilesCfg :=
      { hftFrac := if cfg.profilesCfg.hftFrac = 0 then 0.20 else cfg.profilesCfg.hftFrac,
        regularFrac := if cfg.profilesCfg.regularFrac = 0 then 0.70 else cfg.profilesCfg.regularFrac,
        casualFrac := if cfg.profilesCfg.casualFrac = 0 then 0.10 else cfg.profilesCfg.casualFrac } }

/-- config.Config.Validate, as a Bool: tps in [1,10000], fraud rate in
[0,1], category fractions summing to 1 within 0.01. -/
def validateConfig (cfg : Config) : Bool :=
  decide (1 ≤ cfg.generate.tps ∧ cfg.generate.tps ≤ 10000 ∧
    0 ≤ cfg.generate.fraudRate ∧ cfg.generate.fraudRate ≤ 1 ∧
    0.99 ≤ cfg.profilesCfg.hftFrac + cfg.profilesCfg.regularFrac + cfg.profilesCfg.casualFrac ∧
    cfg.profilesCfg.hftFrac + cfg.profilesCfg.regularFrac + cfg.profilesCfg.casualFrac ≤ 1.01)

/-- config.LoadConfig: fill defaults, then validate; none models the error
return. -/
def LoadConfig (raw : Config) : Option Config :=
  let cfg := applyDefaults raw
  if validateConfig cfg then some cfg else none

/-- The deadline set up by generator.Generator.Run: only a strictly positive
configured duration installs one (a deadline of none is the zero time.Time,
which the per-tick check skips). -/
def runDeadline (cfg : Config) (now : ℤ) : Option ℤ :=
  if cfg.generate.duration > 0 then some (now + cfg.generate.duration) else none

/-- The per-tick deadline check of Run: !deadline.IsZero() and
time.Now().After(deadline). -/
def deadlineExceeded (deadline : Option ℤ) (now : ℤ) : Bool :=
  match deadline with
  | none => false
  | some d => decide (d < now)

/-- generator.Statistics.  Counters are unbounded integers (see the header
comment); the per-category and per-symbol maps are association lists with
the Go map keys. -/
structure Statistics where
  totalTrades : ℤ
  fraudPatterns : ℤ
  volumeCents : ℤ
  byProfile : List (String × ℤ)
  bySymbol : List (String × ℤ)
deriving DecidableEq

/-- Increment the counter stored under a key, leaving the map unchanged when
the key is absent: the Go `if counter, exists := m[k]; exists` update. -/
def bumpIfPresent : List (String × ℤ) → String → List (String × ℤ)
  | [], _ => []
  | (k0, v) :: rest, key =>
    if k0 = key then (k0, v + 1) :: rest else (k0, v) :: bumpIfPresent rest key

/-- Increment the counter stored under a key, inserting a fresh zero counter
first when the key is absent: the lazy per-symbol map update. -/
def bumpOrInsert (m : List (String × ℤ)) (key : String) : List (String × ℤ) :=
  if key ∈ m.map Prod.fst then bumpIfPresent m key else m ++ [(key, 1)]

/-- Store a zero counter under a key, overwriting any existing entry: one
iteration of the ByProfile initialization loop in Run. -/
def setZero : List (String × ℤ) → String → List (String × ℤ)
  | [], key => [(key, 0)]
  | (k0, v) :: rest, key =>
    if k0 = key then (k0, 0) :: rest else (k0, v) :: setZero rest key

/-- The ByProfile map after the initialization loop at the top of Run, for a
given catalog. -/
def initProfileCounters (ps : List TraderProfile) : List (String × ℤ) :=
  ps.foldl (fun m p => setZero m (traderTypeName p.type)) []

/-- The Statistics value of a fresh generator once Run has initialized the
per-category counters (NewGenerator zeroes everything else). -/
def initialStatistics (ps : List TraderProfile) : Statistics :=
  { totalTrades := 0, fraudPatterns := 0, volumeCents := 0,
    byProfile := initProfileCounters ps, bySymbol := [] }

/-- generator.Generator.updateStats.  The Go uint64 volume conversion
truncates the float; amount and price are nonnegative in every reachable
call, so truncation toward zero is the floor. -/
def updateStats (stats : Statistics) (trade : Trade) (profile : TraderProfile)
    (isFraud : Bool) : Statistics :=
  { totalTrades := stats.totalTrades + 1,
    fraudPatterns := stats.fraudPatterns + (if isFraud then 1 else 0),
    volumeCents := stats.volumeCents + ⌊trade.amount * trade.price * 100⌋,
    byProfile := bumpIfPresent stats.byProfile (traderTypeName profile.type),
    bySymbol := bumpOrInsert stats.bySymbol trade.symbol }

/-- One recorded generation outcome: the trade, the profile it came from and
the fraud tag passed to updateStats. -/
structure TradeRec where
  trade : Trade
  profile : TraderProfile
  isFraud : Bool

/-- Fold one recorded outcome into the statistics. -/
def applyRec (s : Statistics) (r : TradeRec) : Statistics :=
  updateStats s r.trade r.profile r.isFraud

/-- The draws consumed by one engine tick, named per call site. -/
structure EngineDraws where
  selR : ℚ
  selHftK : ℕ
  selRegularK : ℕ
  selCasualK : ℕ
  selAllK : ℕ
  fraudSelK : ℕ
  symU : ℚ
  symI : ℕ
  symJ : ℕ
  amtZ : ℚ
  priceU : ℚ
  sideU : ℚ
  sellU : ℚ
  offK : ℕ
  numK : ℕ
  amtZs : ℕ → ℚ
  priceUs : ℕ → ℚ
  sideUs : ℕ → ℚ
  typeK : ℕ
  nightK : ℕ
  minK : ℕ
  secK : ℕ
  pennyK : ℕ
  pennyPriceU : ℚ
  devU : ℚ

/-- generator.Generator.generateNormalTrade: weighted profile selection,
one trade, one statistics update with isFraud = false; none models the
"no profile selected" error (then nothing is published or recorded). -/
def generateNormalTrade (catalog : List TraderProfile) (pc : ProfilesConfig)
    (now : ℤ) (d : EngineDraws) (s : Statistics) :
    Option (List Trade × Statistics) :=
  match SelectProfile catalog pc.hftFrac pc.regularFrac pc.casualFrac d.selR
      d.selHftK d.selRegularK d.selCasualK d.selAllK with
  | none => none
  | some profile =>
    let trade := generateTrade profile now d.symU d.symI d.symJ d.amtZ d.priceU d.sideU
    some ([trade], updateStats s trade profile false)

/-- The fraud-type filter parsed from the configuration string at the top of
generator.Generator.generateFraudPattern. -/
def parseFraudType (s : String) : FraudType :=
  if s = "WASH" then FraudType.wash
  else if s = "VELOCITY" then FraudType.velocity
  else if s = "ANOMALY" then FraudType.anomaly
  else FraudType.allFraud

/-- generator.Generator.generateFraudPattern: select a fraud profile for the
configured filter, falling back to the normal path when none matches (or
when the selected profile carries no recognized pattern), then emit the
pattern and record every trade with isFraud = true. -/
def generateFraudPattern (catalog : List TraderProfile) (pc : ProfilesConfig)
    (fraudTypeStr : String) (now : ℤ) (d : EngineDraws) (s : Statistics) :
    Option (List Trade × Statistics) :=
  let fraudType := parseFraudType fraudTypeStr
  match SelectFraudProfile catalog fraudType d.fraudSelK with
  | none => generateNormalTrade catalog pc now d s
  | some profile =>
    let pattern : Option (List Trade) :=
      if profile.fraudPattern = FraudType.wash then
        some (InjectWashTrade profile now d.symU d.symI d.symJ d.amtZ d.priceU d.sellU d.offK)
      else if profile.fraudPattern = FraudType.velocity then
        some (InjectVelocitySpike profile now d.numK d.symU d.symI d.symJ d.priceU d.amtZs d.priceUs d.sideUs)
      else if profile.fraudPattern = FraudType.anomaly then
        some [InjectAnomaly profile now d.typeK d.symU d.symI d.symJ d.amtZ d.sideU d.priceU d.nightK d.minK d.secK d.pennyK d.pennyPriceU d.devU]
      else
        none
    match pattern with
    | none => generateNormalTrade catalog pc now d s
    | some trades =>
      some (trades, trades.foldl (fun st t => updateStats st t profile true) s)

/-- The FRAUD_WASH_001 catalog entry (note its typical list is exactly the
penny-stock universe). -/
def washProfile : TraderProfile :=
  { userID := "FRAUD_WASH_001", type := TraderType.fraud,
    typicalSymbols := PennyStocks, avgTradeSize := 10000,
    volatility := 0.1, activeHours := [9, 10, 11, 12, 13, 14, 15],
    tradesPerHour := 20, fraudPattern := FraudType.wash }

/-- The FRAUD_ANOMALY_001 catalog entry. -/
def anomalyProfile : TraderProfile :=
  { userID := "FRAUD_ANOMALY_001", type := TraderType.fraud,
    typicalSymbols := BlueChipSymbols.take 3, avgTradeSize := 3000,
    volatility := 0.4, activeHours := [10, 14],
    tradesPerHour := 2, fraudPattern := FraudType.anomaly }

/-- The FRAUD_VELOCITY_001 catalog entry. -/
def velocityProfile : TraderProfile :=
  { userID := "FRAUD_VELOCITY_001", type := TraderType.fraud,
    typicalSymbols := PopularSymbols.take 3, avgTradeSize := 5000,
    volatility := 0.2, activeHours := [14],
    tradesPerHour := 5, fraudPattern := FraudType.velocity }

/-- An all-zero draw stream, used by concrete witnesses. -/
def zeroStream : ℕ → ℚ := fun _ => 0

/-- One full period of the modelled rand.Intn(18) index draw of the
GetRandomSymbol exploration branch. -/
def explorationPeriod : List ℕ :=
  [0, 1, 2, 3, 4, 5, 6, 7, 8, 9, 10, 11, 12, 13, 14, 15, 16, 17]

/-- An all-zero engine draw bundle, used by concrete witnesses. -/
def zeroDraws : EngineDraws :=
  { selR := 0, selHftK := 0, selRegularK := 0, selCasualK := 0, selAllK := 0,
    fraudSelK := 0, symU := 0, symI := 0, symJ := 0, amtZ := 0, priceU := 0,
    sideU := 0, sellU := 0, offK := 0, numK := 0, amtZs := zeroStream,
    priceUs := zeroStream, sideUs := zeroStream, typeK := 0, nightK := 0,
    minK := 0, secK := 0, pennyK := 0, pennyPriceU := 0, devU := 0 }

/-- The default category fractions of the configuration (0.20 / 0.70 /
0.10). -/
def defaultFractions : ProfilesConfig :=
  { hftFrac := 0.20, regularFrac := 0.70, casualFrac := 0.10 }

/-- Sum of the counter values of a counter map. -/
def sumVals (m : List (String × ℤ)) : ℤ :=
  (m.map Prod.snd).sum

/-- A configuration as read by viper when the user passes duration 0 and
the remaining generation parameters explicitly (all of them valid). -/
def zeroDurationInput : Config :=
  { redisPort := 6379,
    generate := { tps := 100, duration := 0, fraudRate := 0.05,
                  fraudType := "ALL", verbose := false,
                  statsInterval := 10 * goSecond },
    profilesCfg := defaultFractions }

example : (0.8 : ℚ) = 4 / 5 := by norm_num
example : GetRandomSymbol ⟨"u", TraderType.hft, [], 1, 0, [], 1, FraudType.noFraud⟩ 0 0 0 = "AAPL" := by decide
example : GenerateAmount ⟨"u", TraderType.hft, [], 100, 0.5, [], 1, FraudType.noFraud⟩ 100 = 300 := by
  norm_num [GenerateAmount]
example : GetPrice "PENNY_A" 0.5 = 2.50 := by simp [GetPrice, lookupBasePrice, getSymbolPrices]
example : timeDateSameDay 100000 2 0 0 = 86400 + 7200 := by
  simp [timeDateSameDay, calendarDay]
example : ∀ k : ℤ, 0 ≤ k → k < 86400 → (86400 * 3 + k) / 86400 = 3 := by omega

/-- Every price in the static table is positive. -/
theorem getSymbolPrices_pos : ∀ pr ∈ getSymbolPrices, (0 : ℚ) < pr.2 := by
  intro pr hpr
  fin_cases hpr <;> norm_num

/-- lookupBasePrice is positive whenever every table entry is (the 100.0
fallback is positive as well). -/
theorem lookupBasePrice_pos (table : List (String × ℚ)) (s : String)
    (h : ∀ pr ∈ table, (0 : ℚ) < pr.2) : 0 < lookupBasePrice table s := by
  induction table with
  | nil => norm_num [lookupBasePrice]
  | cons hd tl ih =>
    simp only [lookupBasePrice]
    split
    · exact h hd (by simp)
    · exact ih fun pr hpr => h pr (by simp [hpr])

/-- The base price looked up by GetPrice is always positive. -/
theorem basePrice_pos (s : String) : 0 < lookupBasePrice getSymbolPrices s :=
  lookupBasePrice_pos getSymbolPrices s getSymbolPrices_pos

/-- GetPrice is positive for any jitter draw at least 0. -/
theorem GetPrice_pos (s : String) (u : ℚ) (hu : 0 ≤ u) : 0 < GetPrice s u := by
  have hb := basePrice_pos s
  simp only [GetPrice]
  have hf : (0 : ℚ) < 1 + (u - 0.5) * 0.02 := by linarith
  exact mul_pos hb hf

/-- GenerateAmount lands in the clamp interval whenever the mean is
positive, whatever the normal draw. -/
theorem generateAmount_mem (p : TraderProfile) (z : ℚ)
    (h : 0 < p.avgTradeSize) :
    p.avgTradeSize * 0.1 ≤ GenerateAmount p z ∧
      GenerateAmount p z ≤ p.avgTradeSize * 3.0 := by
  simp only [GenerateAmount]
  split_ifs <;> constructor <;> linarith

/-- GenerateAmount is positive whenever the mean is. -/
theorem generateAmount_pos (p : TraderProfile) (z : ℚ)
    (h : 0 < p.avgTradeSize) : 0 < GenerateAmount p z :=
  lt_of_lt_of_le (by linarith) (generateAmount_mem p z h).1

/-- C6: for every profile with positive AvgTradeSize, any Volatility and
any draw of the random source, GenerateAmount returns a value in the closed
interval from 0.1 times AvgTradeSize to 3.0 times AvgTradeSize. -/
theorem generateAmount_clamped (p : TraderProfile) (z : ℚ)
    (h : 0 < p.avgTradeSize) :
    0.1 * p.avgTradeSize ≤ GenerateAmount p z ∧
      GenerateAmount p z ≤ 3.0 * p.avgTradeSize := by
  obtain ⟨h1, h2⟩ := generateAmount_mem p z h
  constructor <;> linarith

/-- Witness for C6 at a concrete profile and draw. -/
theorem generateAmount_clamped_witness :
    (0 : ℚ) < (⟨"USER_001", TraderType.regular, ["AAPL"], 5000, 0.5, [10, 14], 2,
        FraudType.noFraud⟩ : TraderProfile).avgTradeSize ∧
      (0.1 * (5000 : ℚ) ≤ GenerateAmount ⟨"USER_001", TraderType.regular, ["AAPL"],
          5000, 0.5, [10, 14], 2, FraudType.noFraud⟩ 7 ∧
        GenerateAmount ⟨"USER_001", TraderType.regular, ["AAPL"], 5000, 0.5,
          [10, 14], 2, FraudType.noFraud⟩ 7 ≤ 3.0 * (5000 : ℚ)) :=
  ⟨by norm_num,
   generateAmount_clamped ⟨"USER_001", TraderType.regular, ["AAPL"], 5000, 0.5,
     [10, 14], 2, FraudType.noFraud⟩ 7 (by norm_num)⟩

/-- C1: every trade produced by the normal synthesis path and by the three
fraud injectors has positive amount and positive price, provided the
profile has positive AvgTradeSize (all catalog profiles do) and the
uniform draws are at least 0 (rand.Float64 draws lie in [0,1)). -/
theorem synthesized_trades_positive
    (p : TraderProfile) (baseTime : ℤ) (symU : ℚ) (symI symJ : ℕ)
    (amtZ : ℚ) (priceU sideU sellU : ℚ) (offK numK : ℕ)
    (amtZs priceUs sideUs : ℕ → ℚ)
    (typeK nightK minK secK pennyK : ℕ) (pennyPriceU devU : ℚ)
    (havg : 0 < p.avgTradeSize) (hpriceU : 0 ≤ priceU) (hsellU : 0 ≤ sellU)
    (hpennyPriceU : 0 ≤ pennyPriceU) (hdevU : 0 ≤ devU)
    (hpriceUs : ∀ i, 0 ≤ priceUs i) :
    (0 < (generateTrade p baseTime symU symI symJ amtZ priceU sideU).amount ∧
      0 < (generateTrade p baseTime symU symI symJ amtZ priceU sideU).price) ∧
    (∀ t ∈ InjectWashTrade p baseTime symU symI symJ amtZ priceU sellU offK,
      0 < t.amount ∧ 0 < t.price) ∧
    (∀ t ∈ InjectVelocitySpike p baseTime numK symU symI symJ priceU amtZs priceUs sideUs,
      0 < t.amount ∧ 0 < t.price) ∧
    (0 < (InjectAnomaly p baseTime typeK symU symI symJ amtZ sideU priceU
        nightK minK secK pennyK pennyPriceU devU).amount ∧
      0 < (InjectAnomaly p baseTime typeK symU symI symJ amtZ sideU priceU
        nightK minK secK pennyK pennyPriceU devU).price) := by
  refine ⟨⟨?_, ?_⟩, ?_, ?_, ?_⟩
  · simpa [generateTrade] using generateAmount_pos p amtZ havg
  · simpa [generateTrade] using GetPrice_pos _ priceU hpriceU
  · intro t ht
    simp only [InjectWashTrade, List.mem_cons, List.not_mem_nil, or_false] at ht
    rcases ht with rfl | rfl
    · exact ⟨generateAmount_pos p amtZ havg, GetPrice_pos _ priceU hpriceU⟩
    · refine ⟨generateAmount_pos p amtZ havg, ?_⟩
      have h1 := GetPrice_pos (GetRandomSymbol p symU symI symJ) priceU hpriceU
      have h2 : (0 : ℚ) < 1 + (sellU - 0.5) * 0.001 := by linarith
      exact mul_pos h1 h2
  · intro t ht
    simp only [InjectVelocitySpike, List.mem_map, List.mem_range] at ht
    obtain ⟨i, _, rfl⟩ := ht
    refine ⟨generateAmount_pos p (amtZs i) havg, ?_⟩
    have h1 := GetPrice_pos (GetRandomSymbol p symU symI symJ) priceU hpriceU
    have h2 : (0 : ℚ) < 1 + (priceUs i - 0.5) * 0.02 := by
      have := hpriceUs i
      linarith
    exact mul_pos h1 h2
  · have h4 : typeK % 4 = 0 ∨ typeK % 4 = 1 ∨ typeK % 4 = 2 ∨ typeK % 4 = 3 := by omega
    rcases h4 with h | h | h | h <;>
      simp only [InjectAnomaly, h] <;> norm_num
    · exact ⟨by linarith, GetPrice_pos _ priceU hpriceU⟩
    · exact ⟨generateAmount_pos p amtZ havg, GetPrice_pos _ priceU hpriceU⟩
    · exact ⟨generateAmount_pos p amtZ havg, by linarith⟩
    · refine ⟨generateAmount_pos p amtZ havg, ?_⟩
      have h1 := GetPrice_pos (GetRandomSymbol p symU symI symJ) priceU hpriceU
      have h2 : (0 : ℚ) < 1 + (devU - 1 / 2) * (1 / 2) := by linarith
      exact mul_pos h1 h2

/-- Witness for C1 at the anomaly fraud profile with all-zero draws. -/
theorem synthesized_trades_positive_witness :
    ((0 : ℚ) < anomalyProfile.avgTradeSize ∧ (0 : ℚ) ≤ 0 ∧
      (∀ i, (0 : ℚ) ≤ zeroStream i)) ∧
    ((0 < (generateTrade anomalyProfile 0 0 0 0 0 0 0).amount ∧
      0 < (generateTrade anomalyProfile 0 0 0 0 0 0 0).price) ∧
    (∀ t ∈ InjectWashTrade anomalyProfile 0 0 0 0 0 0 0 0,
      0 < t.amount ∧ 0 < t.price) ∧
    (∀ t ∈ InjectVelocitySpike anomalyProfile 0 0 0 0 0 0 zeroStream zeroStream zeroStream,
      0 < t.amount ∧ 0 < t.price) ∧
    (0 < (InjectAnomaly anomalyProfile 0 0 0 0 0 0 0 0 0 0 0 0 0 0).amount ∧
      0 < (InjectAnomaly anomalyProfile 0 0 0 0 0 0 0 0 0 0 0 0 0 0).price)) :=
  ⟨⟨by norm_num [anomalyProfile], by norm_num, fun i => by norm_num [zeroStream]⟩,
   synthesized_trades_positive anomalyProfile 0 0 0 0 0 0 0 0 0 0
     zeroStream zeroStream zeroStream 0 0 0 0 0 0 0
     (by norm_num [anomalyProfile]) (by norm_num) (by norm_num)
     (by norm_num) (by norm_num) (fun i => by norm_num [zeroStream])⟩

/-- C2: InjectWashTrade returns exactly a Buy then a Sell of the same
symbol, amount and user identity; the sell price is within 0.05 percent of
the buy price in relative terms, and the sell timestamp is 1 to 4 seconds
after the buy timestamp, hence strictly later.  Requires only that the two
rand.Float64 draws lie in [0, 1). -/
theorem injectWashTrade_pair_shape
    (p : TraderProfile) (baseTime : ℤ) (symU : ℚ) (symI symJ : ℕ)
    (amtZ : ℚ) (priceU sellU : ℚ) (offK : ℕ)
    (hpU : 0 ≤ priceU) (hsU0 : 0 ≤ sellU) (hsU1 : sellU < 1) :
    ∃ t0 t1, InjectWashTrade p baseTime symU symI symJ amtZ priceU sellU offK = [t0, t1] ∧
      t0.type = TradeType.buy ∧ t1.type = TradeType.sell ∧
      t1.symbol = t0.symbol ∧ t1.amount = t0.amount ∧ t1.userID = t0.userID ∧
      |t1.price / t0.price - 1| ≤ 0.0005 ∧
      t0.timestamp < t1.timestamp ∧
      1 ≤ t1.timestamp - t0.timestamp ∧ t1.timestamp - t0.timestamp ≤ 4 := by
  refine ⟨_, _, rfl, rfl, rfl, rfl, rfl, rfl, ?_, ?_, ?_, ?_⟩
  · have hP := GetPrice_pos (GetRandomSymbol p symU symI symJ) priceU hpU
    show |GetPrice (GetRandomSymbol p symU symI symJ) priceU * (1 + (sellU - 0.5) * 0.001) /
        GetPrice (GetRandomSymbol p symU symI symJ) priceU - 1| ≤ 0.0005
    rw [mul_comm, mul_div_assoc, div_self (ne_of_gt hP), mul_one, abs_le]
    constructor <;> linarith
  · show baseTime < baseTime + ((1 + offK % 4 : ℕ) : ℤ)
    omega
  · show 1 ≤ baseTime + ((1 + offK % 4 : ℕ) : ℤ) - baseTime
    omega
  · show baseTime + ((1 + offK % 4 : ℕ) : ℤ) - baseTime ≤ 4
    omega

/-- Witness for C2 at the wash fraud profile with concrete draws. -/
theorem injectWashTrade_pair_shape_witness :
    ((0 : ℚ) ≤ 0.5 ∧ (0 : ℚ) ≤ 0.25 ∧ (0.25 : ℚ) < 1) ∧
    (∃ t0 t1, InjectWashTrade washProfile 1000 0.5 0 0 1 0.5 0.25 2 = [t0, t1] ∧
      t0.type = TradeType.buy ∧ t1.type = TradeType.sell ∧
      t1.symbol = t0.symbol ∧ t1.amount = t0.amount ∧ t1.userID = t0.userID ∧
      |t1.price / t0.price - 1| ≤ 0.0005 ∧
      t0.timestamp < t1.timestamp ∧
      1 ≤ t1.timestamp - t0.timestamp ∧ t1.timestamp - t0.timestamp ≤ 4) :=
  ⟨⟨by norm_num, by norm_num, by norm_num⟩,
   injectWashTrade_pair_shape washProfile 1000 0.5 0 0 1 0.5 0.25 2
     (by norm_num) (by norm_num) (by norm_num)⟩

/-- C3: InjectVelocitySpike returns between 10 and 20 trades, all on the
single symbol drawn once; the trade at index i is stamped base time plus i
seconds, so consecutive timestamps differ by exactly one second; and every
price is within one percent of the single base price looked up once for
the burst. -/
theorem injectVelocitySpike_shape
    (p : TraderProfile) (baseTime : ℤ) (numK : ℕ) (symU : ℚ) (symI symJ : ℕ)
    (basePriceU : ℚ) (amtZs priceUs sideUs : ℕ → ℚ)
    (hb : 0 ≤ basePriceU) (hus : ∀ i, 0 ≤ priceUs i ∧ priceUs i < 1) :
    10 ≤ (InjectVelocitySpike p baseTime numK symU symI symJ basePriceU amtZs priceUs sideUs).length ∧
    (InjectVelocitySpike p baseTime numK symU symI symJ basePriceU amtZs priceUs sideUs).length ≤ 20 ∧
    (∀ t ∈ InjectVelocitySpike p baseTime numK symU symI symJ basePriceU amtZs priceUs sideUs,
      t.symbol = GetRandomSymbol p symU symI symJ) ∧
    (∀ i t, (InjectVelocitySpike p baseTime numK symU symI symJ basePriceU amtZs priceUs sideUs).get? i = some t →
      t.timestamp = baseTime + (i : ℤ)) ∧
    (∀ i t t1, (InjectVelocitySpike p baseTime numK symU symI symJ basePriceU amtZs priceUs sideUs).get? i = some t →
      (InjectVelocitySpike p baseTime numK symU symI symJ basePriceU amtZs priceUs sideUs).get? (i + 1) = some t1 →
      t1.timestamp - t.timestamp = 1) ∧
    (∀ t ∈ InjectVelocitySpike p baseTime numK symU symI symJ basePriceU amtZs priceUs sideUs,
      |t.price - GetPrice (GetRandomSymbol p symU symI symJ) basePriceU| ≤
        0.01 * GetPrice (GetRandomSymbol p symU symI symJ) basePriceU) := by
  have hlen : (InjectVelocitySpike p baseTime numK symU symI symJ basePriceU amtZs priceUs sideUs).length
      = 10 + numK % 11 := by
    simp [InjectVelocitySpike]
  have hget : ∀ i, i < 10 + numK % 11 →
      (InjectVelocitySpike p baseTime numK symU symI symJ basePriceU amtZs priceUs sideUs).get? i =
        some { userID := p.userID, symbol := GetRandomSymbol p symU symI symJ,
               amount := GenerateAmount p (amtZs i),
               price := GetPrice (GetRandomSymbol p symU symI symJ) basePriceU * (1 + (priceUs i - 0.5) * 0.02),
               type := RandomTradeType (sideUs i),
               timestamp := baseTime + (i : ℤ) } := by
    intro i hi
    simp only [InjectVelocitySpike]
    rw [List.get?_map, List.get?_range hi]
    rfl
  have hnone : ∀ i, ¬ i < 10 + numK % 11 →
      (InjectVelocitySpike p baseTime numK symU symI symJ basePriceU amtZs priceUs sideUs).get? i = none := by
    intro i hi
    apply List.get?_eq_none.mpr
    rw [hlen]
    omega
  refine ⟨by omega, by omega, ?_, ?_, ?_, ?_⟩
  · intro t ht
    simp only [InjectVelocitySpike, List.mem_map, List.mem_range] at ht
    obtain ⟨i, _, rfl⟩ := ht
    rfl
  · intro i t ht
    by_cases hi : i < 10 + numK % 11
    · rw [hget i hi] at ht
      injection ht with ht
      rw [← ht]
    · rw [hnone i hi] at ht
      exact absurd ht (by simp)
  · intro i t t1 ht ht1
    by_cases hi : i + 1 < 10 + numK % 11
    · rw [hget i (by omega)] at ht
      rw [hget (i + 1) hi] at ht1
      injection ht with ht
      injection ht1 with ht1
      rw [← ht, ← ht1]
      push_cast
      ring
    · rw [hnone (i + 1) hi] at ht1
      exact absurd ht1 (by simp)
  · intro t ht
    simp only [InjectVelocitySpike, List.mem_map, List.mem_range] at ht
    obtain ⟨i, _, rfl⟩ := ht
    have hB := GetPrice_pos (GetRandomSymbol p symU symI symJ) basePriceU hb
    set B := GetPrice (GetRandomSymbol p symU symI symJ) basePriceU with hBdef
    show |B * (1 + (priceUs i - 0.5) * 0.02) - B| ≤ 0.01 * B
    have h1 : B * priceUs i ≤ B * 1 :=
      mul_le_mul_of_nonneg_left (le_of_lt (hus i).2) (le_of_lt hB)
    have h2 : B * 0 ≤ B * priceUs i :=
      mul_le_mul_of_nonneg_left (hus i).1 (le_of_lt hB)
    rw [abs_le]
    constructor <;> nlinarith

/-- Witness for C3 at the velocity fraud profile with concrete draws. -/
theorem injectVelocitySpike_shape_witness :
    ((0 : ℚ) ≤ 0.5 ∧ (∀ i, (0 : ℚ) ≤ zeroStream i ∧ zeroStream i < 1)) ∧
    (10 ≤ (InjectVelocitySpike velocityProfile 500 3 0.5 0 0 0.5 zeroStream zeroStream zeroStream).length ∧
      (InjectVelocitySpike velocityProfile 500 3 0.5 0 0 0.5 zeroStream zeroStream zeroStream).length ≤ 20 ∧
      (∀ t ∈ InjectVelocitySpike velocityProfile 500 3 0.5 0 0 0.5 zeroStream zeroStream zeroStream,
        t.symbol = GetRandomSymbol velocityProfile 0.5 0 0) ∧
      (∀ i t, (InjectVelocitySpike velocityProfile 500 3 0.5 0 0 0.5 zeroStream zeroStream zeroStream).get? i = some t →
        t.timestamp = 500 + (i : ℤ)) ∧
      (∀ i t t1, (InjectVelocitySpike velocityProfile 500 3 0.5 0 0 0.5 zeroStream zeroStream zeroStream).get? i = some t →
        (InjectVelocitySpike velocityProfile 500 3 0.5 0 0 0.5 zeroStream zeroStream zeroStream).get? (i + 1) = some t1 →
        t1.timestamp - t.timestamp = 1) ∧
      (∀ t ∈ InjectVelocitySpike velocityProfile 500 3 0.5 0 0 0.5 zeroStream zeroStream zeroStream,
        |t.price - GetPrice (GetRandomSymbol velocityProfile 0.5 0 0) 0.5| ≤
          0.01 * GetPrice (GetRandomSymbol velocityProfile 0.5 0 0) 0.5)) :=
  ⟨⟨by norm_num, fun i => ⟨by norm_num [zeroStream], by norm_num [zeroStream]⟩⟩,
   injectVelocitySpike_shape velocityProfile 500 3 0.5 0 0 0.5 zeroStream zeroStream zeroStream
     (by norm_num) (fun i => ⟨by norm_num [zeroStream], by norm_num [zeroStream]⟩)⟩

/-- An in-range getD lands in the list. -/
theorem getD_mem_of_lt {α : Type} (l : List α) (i : ℕ) (d : α)
    (h : i < l.length) : l.getD i d ∈ l := by
  induction l generalizing i with
  | nil => simp at h
  | cons hd tl ih =>
    cases i with
    | zero => simp
    | succ n =>
      simp only [List.getD_cons_succ, List.mem_cons]
      exact Or.inr (ih n (by simpa using h))

/-- C4 counterexample: the claim that the off-catalog variant produces a
symbol outside the profile typical list fails on the FRAUD_WASH_001 catalog
profile, whose typical list is exactly the penny-stock universe; and the
claim that the price variant stays within 25 percent of the market base
price fails against the static table price, because the deviation is
applied on top of the one-percent GetPrice jitter. -/
theorem injectAnomaly_offcatalog_claim_false :
    ((InjectAnomaly washProfile 0 2 0 0 0 0 0 0 0 0 0 0 0 0).symbol = "PENNY_A" ∧
      (InjectAnomaly washProfile 0 2 0 0 0 0 0 0 0 0 0 0 0 0).symbol ∈ washProfile.typicalSymbols ∧
      washProfile ∈ GetDefaultProfiles) ∧
    ((InjectAnomaly anomalyProfile 0 3 0 0 0 0 0 0.99 0 0 0 0 0 0.999).symbol = "AAPL" ∧
      0.25 < |(InjectAnomaly anomalyProfile 0 3 0 0 0 0 0 0.99 0 0 0 0 0 0.999).price /
          lookupBasePrice getSymbolPrices "AAPL" - 1|) := by
  refine ⟨⟨?_, ?_, ?_⟩, ?_, ?_⟩
  · simp [InjectAnomaly, PennyStocks]
  · simp [InjectAnomaly, PennyStocks, washProfile]
  · simp [GetDefaultProfiles, washProfile]
  · simp [InjectAnomaly, GetRandomSymbol, anomalyProfile, BlueChipSymbols]
    norm_num
  · have h : (0.25 : ℚ) < (InjectAnomaly anomalyProfile 0 3 0 0 0 0 0 0.99 0 0 0 0 0 0.999).price /
        lookupBasePrice getSymbolPrices "AAPL" - 1 := by
      simp [InjectAnomaly, GetRandomSymbol, anomalyProfile, BlueChipSymbols, GetPrice,
        lookupBasePrice, getSymbolPrices] <;> norm_num
    exact lt_of_lt_of_le h (le_abs_self _)

/-- C4 amended: InjectAnomaly emits one trade whose sub-type is selected by
the rand.Intn(4) draw among four variants; the size variant has amount
exactly ten times the profile average; the timing variant lands in the
02:00 to 05:59 window of the calendar day of the base time; the off-catalog
variant draws its symbol from the penny-stock universe (not necessarily
outside the profile typical list), with price uniform in [0.50, 5.50); and
the price variant deviates by a factor within 25 percent of the freshly
jittered market price returned by GetPrice for the trade symbol. -/
theorem injectAnomaly_variant_shapes
    (p : TraderProfile) (baseTime : ℤ) (typeK : ℕ) (symU : ℚ) (symI symJ : ℕ)
    (amtZ sideU priceU : ℚ) (nightK minK secK pennyK : ℕ) (pennyPriceU devU : ℚ)
    (hpU : 0 ≤ priceU) (hpp0 : 0 ≤ pennyPriceU) (hpp1 : pennyPriceU < 1)
    (hd0 : 0 ≤ devU) (hd1 : devU < 1) :
    (typeK % 4 = 0 →
      (InjectAnomaly p baseTime typeK symU symI symJ amtZ sideU priceU
        nightK minK secK pennyK pennyPriceU devU).amount = 10 * p.avgTradeSize) ∧
    (typeK % 4 = 1 →
      calendarDay (InjectAnomaly p baseTime typeK symU symI symJ amtZ sideU priceU
        nightK minK secK pennyK pennyPriceU devU).timestamp = calendarDay baseTime ∧
      7200 ≤ secondOfDay (InjectAnomaly p baseTime typeK symU symI symJ amtZ sideU priceU
        nightK minK secK pennyK pennyPriceU devU).timestamp ∧
      secondOfDay (InjectAnomaly p baseTime typeK symU symI symJ amtZ sideU priceU
        nightK minK secK pennyK pennyPriceU devU).timestamp ≤ 21599) ∧
    (typeK % 4 = 2 →
      (InjectAnomaly p baseTime typeK symU symI symJ amtZ sideU priceU
        nightK minK secK pennyK pennyPriceU devU).symbol ∈ PennyStocks ∧
      0.5 ≤ (InjectAnomaly p baseTime typeK symU symI symJ amtZ sideU priceU
        nightK minK secK pennyK pennyPriceU devU).price ∧
      (InjectAnomaly p baseTime typeK symU symI symJ amtZ sideU priceU
        nightK minK secK pennyK pennyPriceU devU).price < 5.5) ∧
    (typeK % 4 = 3 →
      |(InjectAnomaly p baseTime typeK symU symI symJ amtZ sideU priceU
          nightK minK secK pennyK pennyPriceU devU).price /
        GetPrice (GetRandomSymbol p symU symI symJ) priceU - 1| ≤ 0.25) := by
  refine ⟨?_, ?_, ?_, ?_⟩
  · intro h
    simp [InjectAnomaly, h]
    ring
  · intro h
    simp only [InjectAnomaly, h]
    norm_num
    unfold timeDateSameDay calendarDay secondOfDay
    omega
  · intro h
    simp only [InjectAnomaly, h]
    norm_num
    refine ⟨?_, ?_, ?_⟩
    · have hlt : pennyK % PennyStocks.length < PennyStocks.length :=
        Nat.mod_lt _ (by simp [PennyStocks])
      rw [List.getElem?_eq_getElem hlt]
      simpa using List.getElem_mem PennyStocks _ hlt
    · linarith
    · linarith
  · intro h
    simp only [InjectAnomaly, h]
    norm_num
    have hP := GetPrice_pos (GetRandomSymbol p symU symI symJ) priceU hpU
    rw [mul_comm, mul_div_assoc, div_self (ne_of_gt hP), mul_one, abs_le]
    constructor <;> linarith

/-- Witness for C4 (amended) at the anomaly fraud profile, timing variant. -/
theorem injectAnomaly_variant_shapes_witness :
    ((0 : ℚ) ≤ 0.5 ∧ (0 : ℚ) ≤ 0.5 ∧ (0.5 : ℚ) < 1) ∧
    ((1 % 4 = 0 →
      (InjectAnomaly anomalyProfile 90000 1 0.5 0 0 0 0.5 0.5 0 0 0 0 0.5 0.5).amount =
        10 * anomalyProfile.avgTradeSize) ∧
    (1 % 4 = 1 →
      calendarDay (InjectAnomaly anomalyProfile 90000 1 0.5 0 0 0 0.5 0.5 0 0 0 0 0.5 0.5).timestamp =
        calendarDay 90000 ∧
      7200 ≤ secondOfDay (InjectAnomaly anomalyProfile 90000 1 0.5 0 0 0 0.5 0.5 0 0 0 0 0.5 0.5).timestamp ∧
      secondOfDay (InjectAnomaly anomalyProfile 90000 1 0.5 0 0 0 0.5 0.5 0 0 0 0 0.5 0.5).timestamp ≤ 21599) ∧
    (1 % 4 = 2 →
      (InjectAnomaly anomalyProfile 90000 1 0.5 0 0 0 0.5 0.5 0 0 0 0 0.5 0.5).symbol ∈ PennyStocks ∧
      0.5 ≤ (InjectAnomaly anomalyProfile 90000 1 0.5 0 0 0 0.5 0.5 0 0 0 0 0.5 0.5).price ∧
      (InjectAnomaly anomalyProfile 90000 1 0.5 0 0 0 0.5 0.5 0 0 0 0 0.5 0.5).price < 5.5) ∧
    (1 % 4 = 3 →
      |(InjectAnomaly anomalyProfile 90000 1 0.5 0 0 0 0.5 0.5 0 0 0 0 0.5 0.5).price /
        GetPrice (GetRandomSymbol anomalyProfile 0.5 0 0) 0.5 - 1| ≤ 0.25)) :=
  ⟨⟨by norm_num, by norm_num, by norm_num⟩,
   injectAnomaly_variant_shapes anomalyProfile 90000 1 0.5 0 0 0 0.5 0.5 0 0 0 0 0.5 0.5
     (by norm_num) (by norm_num) (by norm_num) (by norm_num) (by norm_num)⟩

/-- C8 counterexample: in the 20 percent exploration branch the symbol is
drawn uniformly over the CONCATENATED universe list, which contains AAPL
twice (blue-chip and popular) but MSFT once, so over one full period of the
index draw AAPL comes up twice as often as MSFT: the induced distribution
is not uniform on the union as a set. -/
theorem getRandomSymbol_not_uniform_on_union :
    "AAPL" ∈ allSymbols ∧ "MSFT" ∈ allSymbols ∧
    (explorationPeriod.map fun j => GetRandomSymbol washProfile 0.9 0 j).count "AAPL" = 2 ∧
    (explorationPeriod.map fun j => GetRandomSymbol washProfile 0.9 0 j).count "MSFT" = 1 := by
  have hexp : ∀ jj : ℕ, GetRandomSymbol washProfile 0.9 0 jj =
      allSymbols.getD (jj % allSymbols.length) "AAPL" := by
    intro jj
    unfold GetRandomSymbol
    rw [if_neg (by simp [washProfile, PennyStocks]), if_neg (by norm_num)]
  refine ⟨by decide, by decide, ?_, ?_⟩ <;> simp only [hexp] <;> decide

/-- C8 amended: GetRandomSymbol returns the fixed default for an empty
typical list; with probability 0.8 it indexes uniformly into the profile
typical list; otherwise it indexes uniformly into the concatenation of the
blue-chip, popular and ETF lists — uniform over the union counted with
multiplicity, not over the union as a set. -/
theorem getRandomSymbol_behavior (p : TraderProfile) (u : ℚ) (i j : ℕ) :
    (p.typicalSymbols = [] → GetRandomSymbol p u i j = "AAPL") ∧
    (p.typicalSymbols ≠ [] → u < 0.8 →
      GetRandomSymbol p u i j = p.typicalSymbols.getD (i % p.typicalSymbols.length) "AAPL" ∧
      GetRandomSymbol p u i j ∈ p.typicalSymbols) ∧
    (p.typicalSymbols ≠ [] → 0.8 ≤ u →
      GetRandomSymbol p u i j = allSymbols.getD (j % allSymbols.length) "AAPL" ∧
      GetRandomSymbol p u i j ∈ allSymbols) := by
  refine ⟨?_, ?_, ?_⟩
  · intro h
    simp [GetRandomSymbol, h]
  · intro h1 h2
    have heq : GetRandomSymbol p u i j =
        p.typicalSymbols.getD (i % p.typicalSymbols.length) "AAPL" := by
      unfold GetRandomSymbol
      rw [if_neg h1, if_pos h2]
    refine ⟨heq, ?_⟩
    rw [heq]
    apply getD_mem_of_lt
    exact Nat.mod_lt _ (List.length_pos.mpr h1)
  · intro h1 h2
    have heq : GetRandomSymbol p u i j =
        allSymbols.getD (j % allSymbols.length) "AAPL" := by
      unfold GetRandomSymbol
      rw [if_neg h1, if_neg (not_lt.mpr h2)]
    refine ⟨heq, ?_⟩
    rw [heq]
    apply getD_mem_of_lt
    exact Nat.mod_lt _ (by decide)

/-- Witness for C8 (amended) at the wash fraud profile, typical branch. -/
theorem getRandomSymbol_behavior_witness :
    washProfile.typicalSymbols ≠ [] ∧ (0.5 : ℚ) < 0.8 ∧
    (GetRandomSymbol washProfile 0.5 3 0 =
      washProfile.typicalSymbols.getD (3 % washProfile.typicalSymbols.length) "AAPL" ∧
      GetRandomSymbol washProfile 0.5 3 0 ∈ washProfile.typicalSymbols) :=
  ⟨by decide, by norm_num,
   (getRandomSymbol_behavior washProfile 0.5 3 0).2.1 (by decide) (by norm_num)⟩

/-- chooseFrom returns none exactly on the empty list. -/
theorem chooseFrom_eq_none_iff {α : Type} (l : List α) (k : ℕ) :
    chooseFrom l k = none ↔ l = [] := by
  unfold chooseFrom
  rw [List.get?_eq_none]
  constructor
  · intro h
    by_contra hne
    have hpos := List.length_pos.mpr hne
    have := Nat.mod_lt k hpos
    omega
  · intro h
    subst h
    simp

/-- chooseFrom only returns elements of the list. -/
theorem chooseFrom_mem {α : Type} {l : List α} {k : ℕ} {a : α}
    (h : chooseFrom l k = some a) : a ∈ l :=
  List.get?_mem h

/-- C9: SelectFraudProfile returns none exactly when no Fraud-category
profile matches the filter (AllFraud matching every fraud profile); any
returned profile is a matching catalog profile; and on none the fraud
branch of the engine reduces to the normal-trade branch. -/
theorem selectFraudProfile_none_iff_and_fallback
    (ps : List TraderProfile) (ft : FraudType) (k : ℕ)
    (pc : ProfilesConfig) (fts : String) (now : ℤ) (d : EngineDraws)
    (s : Statistics) :
    (SelectFraudProfile ps ft k = none ↔
      ∀ p ∈ ps, ¬(p.type = TraderType.fraud ∧
        (ft = FraudType.allFraud ∨ p.fraudPattern = ft))) ∧
    (∀ p, SelectFraudProfile ps ft k = some p →
      p ∈ ps ∧ p.type = TraderType.fraud ∧
        (ft = FraudType.allFraud ∨ p.fraudPattern = ft)) ∧
    (SelectFraudProfile ps (parseFraudType fts) d.fraudSelK = none →
      generateFraudPattern ps pc fts now d s = generateNormalTrade ps pc now d s) := by
  refine ⟨?_, ?_, ?_⟩
  · rw [SelectFraudProfile, chooseFrom_eq_none_iff]
    simp only [List.filter_eq_nil, fraudMatches, decide_eq_true_eq]
  · intro p hp
    have hmem := chooseFrom_mem hp
    rw [List.mem_filter] at hmem
    obtain ⟨h1, h2⟩ := hmem
    rw [fraudMatches, decide_eq_true_eq] at h2
    exact ⟨h1, h2⟩
  · intro h
    simp only [generateFraudPattern, h]

/-- Witness for C9: on the default catalog with the Wash filter the wash
fraud profile is selected and matches; on an empty catalog the selection is
none and the fraud branch equals the normal branch. -/
theorem selectFraudProfile_none_iff_and_fallback_witness :
    SelectFraudProfile GetDefaultProfiles FraudType.wash 0 = some washProfile ∧
    (washProfile ∈ GetDefaultProfiles ∧ washProfile.type = TraderType.fraud ∧
      (FraudType.wash = FraudType.allFraud ∨ washProfile.fraudPattern = FraudType.wash)) ∧
    SelectFraudProfile [] (parseFraudType "WASH") zeroDraws.fraudSelK = none ∧
    generateFraudPattern [] defaultFractions "WASH" 0 zeroDraws (initialStatistics GetDefaultProfiles) =
      generateNormalTrade [] defaultFractions 0 zeroDraws (initialStatistics GetDefaultProfiles) :=
  ⟨rfl,
   (selectFraudProfile_none_iff_and_fallback GetDefaultProfiles FraudType.wash 0
     defaultFractions "WASH" 0 zeroDraws (initialStatistics GetDefaultProfiles)).2.1
     washProfile rfl,
   rfl,
   (selectFraudProfile_none_iff_and_fallback [] FraudType.wash 0
     defaultFractions "WASH" 0 zeroDraws (initialStatistics GetDefaultProfiles)).2.2
     rfl⟩

/-- bumpIfPresent does not change the key list. -/
theorem bumpIfPresent_keys (m : List (String × ℤ)) (key : String) :
    (bumpIfPresent m key).map Prod.fst = m.map Prod.fst := by
  induction m with
  | nil => rfl
  | cons hd tl ih =>
    obtain ⟨k0, v⟩ := hd
    simp only [bumpIfPresent]
    split
    · simp
    · simp [ih]

/-- bumpIfPresent adds exactly one to the value sum when the key is
present. -/
theorem bumpIfPresent_sum (m : List (String × ℤ)) (key : String)
    (h : key ∈ m.map Prod.fst) :
    sumVals (bumpIfPresent m key) = sumVals m + 1 := by
  induction m with
  | nil => simp at h
  | cons hd tl ih =>
    obtain ⟨k0, v⟩ := hd
    simp only [bumpIfPresent]
    split
    · simp [sumVals]
      ring
    · rename_i hne
      have hkey : key ∈ tl.map Prod.fst := by
        simp only [List.map_cons, List.mem_cons] at h
        rcases h with h | h
        · exact absurd h.symm hne
        · exact h
      simp only [sumVals, List.map_cons, List.sum_cons] at ih ⊢
      rw [ih hkey]
      ring

/-- Folding recorded outcomes into the statistics adds one to the total and
one to the per-category sum per record, as long as every record category is
a key of the counter map. -/
theorem applyRec_fold (recs : List TradeRec) (s : Statistics)
    (hk : ∀ r ∈ recs, traderTypeName r.profile.type ∈ s.byProfile.map Prod.fst) :
    (recs.foldl applyRec s).totalTrades = s.totalTrades + recs.length ∧
    sumVals (recs.foldl applyRec s).byProfile = sumVals s.byProfile + recs.length := by
  induction recs generalizing s with
  | nil => simp
  | cons r rest ih =>
    simp only [List.foldl_cons, List.length_cons]
    have hkeys : (applyRec s r).byProfile.map Prod.fst = s.byProfile.map Prod.fst :=
      bumpIfPresent_keys s.byProfile (traderTypeName r.profile.type)
    obtain ⟨h1, h2⟩ := ih (applyRec s r) fun r2 h2 => by
      rw [hkeys]
      exact hk r2 (List.mem_cons_of_mem r h2)
    constructor
    · rw [h1]
      show s.totalTrades + 1 + (rest.length : ℤ) = _
      push_cast
      ring
    · rw [h2]
      have := bumpIfPresent_sum s.byProfile (traderTypeName r.profile.type)
        (hk r (List.mem_cons_self r rest))
      show sumVals (bumpIfPresent s.byProfile (traderTypeName r.profile.type)) +
        (rest.length : ℤ) = _
      rw [this]
      push_cast
      ring

/-- C7: starting from the statistics of a fresh generator over the default
catalog, recording N outcomes through updateStats makes the total-trade
counter N and the per-category counter sum N.  The catalog hypothesis of
the claim holds automatically: the default catalog populates all four
category keys, and every profile category is one of the four. -/
theorem updateStats_total_and_category_sum (recs : List TradeRec) :
    (recs.foldl applyRec (initialStatistics GetDefaultProfiles)).totalTrades = recs.length ∧
    sumVals (recs.foldl applyRec (initialStatistics GetDefaultProfiles)).byProfile = recs.length := by
  have hkey : ∀ ty : TraderType,
      traderTypeName ty ∈ (initialStatistics GetDefaultProfiles).byProfile.map Prod.fst := by
    intro ty
    cases ty <;> decide
  obtain ⟨h1, h2⟩ := applyRec_fold recs (initialStatistics GetDefaultProfiles)
    fun r _ => hkey r.profile.type
  have hsum : sumVals (initialStatistics GetDefaultProfiles).byProfile = 0 := by decide
  have htot : (initialStatistics GetDefaultProfiles).totalTrades = 0 := by decide
  rw [h1, h2, hsum, htot]
  omega

/-- Folding an all-fraud trade list into the statistics adds the list
length to the fraud counter. -/
theorem fraudFold (trades : List Trade) (p : TraderProfile) (s : Statistics) :
    (trades.foldl (fun st t => updateStats st t p true) s).fraudPatterns =
      s.fraudPatterns + trades.length := by
  induction trades generalizing s with
  | nil => simp
  | cons t rest ih =>
    simp only [List.foldl_cons, List.length_cons]
    rw [ih]
    show (updateStats s t p true).fraudPatterns + (rest.length : ℤ) = _
    simp only [updateStats, if_pos]
    push_cast
    ring

/-- C10: when the fraud branch finds a fraud profile, the fraud counter
rises by exactly the number of trades of the emitted pattern: 2 for a wash
pair, the burst length (between 10 and 20) for a velocity spike, 1 for an
anomaly.  The counter counts individual fraud trades, not patterns. -/
theorem fraudBranch_fraud_count_per_trade
    (catalog : List TraderProfile) (pc : ProfilesConfig) (fts : String)
    (now : ℤ) (d : EngineDraws) (s : Statistics) (profile : TraderProfile)
    (hsel : SelectFraudProfile catalog (parseFraudType fts) d.fraudSelK = some profile) :
    (profile.fraudPattern = FraudType.wash →
      ∃ trades s1, generateFraudPattern catalog pc fts now d s = some (trades, s1) ∧
        trades.length = 2 ∧ s1.fraudPatterns = s.fraudPatterns + 2) ∧
    (profile.fraudPattern = FraudType.velocity →
      ∃ trades s1, generateFraudPattern catalog pc fts now d s = some (trades, s1) ∧
        10 ≤ trades.length ∧ trades.length ≤ 20 ∧
        s1.fraudPatterns = s.fraudPatterns + trades.length) ∧
    (profile.fraudPattern = FraudType.anomaly →
      ∃ trades s1, generateFraudPattern catalog pc fts now d s = some (trades, s1) ∧
        trades.length = 1 ∧ s1.fraudPatterns = s.fraudPatterns + 1) := by
  refine ⟨?_, ?_, ?_⟩
  · intro hw
    refine ⟨InjectWashTrade profile now d.symU d.symI d.symJ d.amtZ d.priceU d.sellU d.offK,
      (InjectWashTrade profile now d.symU d.symI d.symJ d.amtZ d.priceU d.sellU d.offK).foldl
        (fun st t => updateStats st t profile true) s,
      ?_, by simp [InjectWashTrade], ?_⟩
    · simp [generateFraudPattern, hsel, hw]
    · rw [fraudFold]
      simp [InjectWashTrade]
  · intro hv
    refine ⟨InjectVelocitySpike profile now d.numK d.symU d.symI d.symJ d.priceU d.amtZs d.priceUs d.sideUs,
      (InjectVelocitySpike profile now d.numK d.symU d.symI d.symJ d.priceU d.amtZs d.priceUs d.sideUs).foldl
        (fun st t => updateStats st t profile true) s,
      ?_, ?_, ?_, ?_⟩
    · simp [generateFraudPattern, hsel, hv]
    · simp [InjectVelocitySpike]
    · simp [InjectVelocitySpike]
      omega
    · rw [fraudFold]
  · intro ha
    refine ⟨[InjectAnomaly profile now d.typeK d.symU d.symI d.symJ d.amtZ d.sideU d.priceU d.nightK d.minK d.secK d.pennyK d.pennyPriceU d.devU],
      ([InjectAnomaly profile now d.typeK d.symU d.symI d.symJ d.amtZ d.sideU d.priceU d.nightK d.minK d.secK d.pennyK d.pennyPriceU d.devU]).foldl
        (fun st t => updateStats st t profile true) s,
      ?_, by simp, ?_⟩
    · simp [generateFraudPattern, hsel, ha]
    · rw [fraudFold]
      simp

/-- Witness for C10: on the default catalog with the Wash filter and
all-zero draws, the fraud branch emits a 2-trade wash pattern and the fraud
counter rises by 2. -/
theorem fraudBranch_fraud_count_per_trade_witness :
    SelectFraudProfile GetDefaultProfiles (parseFraudType "WASH") zeroDraws.fraudSelK = some washProfile ∧
    washProfile.fraudPattern = FraudType.wash ∧
    (∃ trades s1, generateFraudPattern GetDefaultProfiles defaultFractions "WASH" 0 zeroDraws
        (initialStatistics GetDefaultProfiles) = some (trades, s1) ∧
      trades.length = 2 ∧
      s1.fraudPatterns = (initialStatistics GetDefaultProfiles).fraudPatterns + 2) :=
  ⟨rfl, rfl,
   (fraudBranch_fraud_count_per_trade GetDefaultProfiles defaultFractions "WASH" 0 zeroDraws
     (initialStatistics GetDefaultProfiles) washProfile rfl).1 rfl⟩

/-- C5 (code bug evaluation): a configuration carrying duration 0 is
rewritten by LoadConfig to the 5-minute default, so the loaded
configuration installs a deadline 5 minutes after start and the per-tick
check fires once that deadline has passed — whereas duration 0 is
documented as meaning an unbounded run.  The bare Run-level check alone
would indeed install no deadline for duration 0 (last conjunct). -/
theorem loadConfig_duration_zero_gets_deadline :
    (LoadConfig zeroDurationInput).map (fun cfg => cfg.generate.duration) = some (5 * goMinute) ∧
    (LoadConfig zeroDurationInput).map (fun cfg => runDeadline cfg 0) = some (some (5 * goMinute)) ∧
    (LoadConfig zeroDurationInput).map
      (fun cfg => deadlineExceeded (runDeadline cfg 0) (5 * goMinute + 1)) = some true ∧
    runDeadline zeroDurationInput 0 = none := by
  have hval : validateConfig (applyDefaults zeroDurationInput) = true := by
    rw [validateConfig, decide_eq_true_eq]
    norm_num [applyDefaults, zeroDurationInput, defaultFractions, goSecond, goMinute]
  have hload : LoadConfig zeroDurationInput = some (applyDefaults zeroDurationInput) := by
    simp only [LoadConfig, hval, if_true]
  rw [hload]
  refine ⟨?_, ?_, ?_, ?_⟩
  · simp [applyDefaults, zeroDurationInput, goMinute, goSecond]
  · simp [applyDefaults, zeroDurationInput, runDeadline, goMinute, goSecond]
  · simp [applyDefaults, zeroDurationInput, runDeadline, deadlineExceeded, goMinute, goSecond]
  · simp [runDeadline, zeroDurationInput]
